import Mathlib

/-!
Verification of the BLACK BOX voice-assistant orchestration core.

Shallow embedding of the Python sources:
* `src/orchestrator/thermal.py`  — thermal state machine (`ThermalMonitor._update_state`,
  `trigger_cooldown`).
* `src/orchestrator/ipc.py`      — shared-memory transport (`IPCManager.initialize`,
  `_get_next_request_id`, `_write_request`).
* `src/orchestrator/pipeline.py` — voice pipeline (`VoicePipeline.process_voice_input`,
  `_execute_function_calls`, `_update_metrics`).
* `src/database/db.py`           — context store (`Database.get_user_context`, `add_message`).
* `src/llm-service/inference.py` — prompt assembly (`LLMService._build_prompt_with_context`).

External effects (worker calls, database commits, wall-clock durations) are modelled by an
oracle record supplying each effectful call's outcome; the embedding then follows the source's
control flow deterministically.
-/

namespace BlackBox

/-! ## Thermal monitor (`src/orchestrator/thermal.py`) -/

/-- `ThermalState` enum from `thermal.py`. -/
inductive ThermalState where
  | normal
  | warning
  | critical
  | cooldown
deriving DecidableEq, Repr

/-- The three temperature thresholds of `ThermalMonitor.__init__`
(`warning_temp`, `critical_temp`, `cooldown_temp`).  Python floats are embedded as
rationals. -/
structure ThermalConfig where
  warningTemp : ℚ
  criticalTemp : ℚ
  cooldownTemp : ℚ
deriving DecidableEq, Repr

/-- Defaults from `ThermalMonitor.__init__`: warning 75.0, critical 85.0, cooldown 70.0. -/
def defaultThermalConfig : ThermalConfig := ⟨75, 85, 70⟩

/-- `ThermalMonitor._update_state` (thermal.py:160-189), the pure state transition applied
under the monitor's lock at each sample with the maximum temperature over all zones:

```
if self.state == ThermalState.COOLDOWN:
    if max_temp < self.cooldown_temp: self.state = ThermalState.NORMAL
elif max_temp >= self.critical_temp: self.state = ThermalState.CRITICAL
elif max_temp >= self.warning_temp:  self.state = ThermalState.WARNING
else:                                self.state = ThermalState.NORMAL
```
-/
def updateState (cfg : ThermalConfig) (s : ThermalState) (maxTemp : ℚ) : ThermalState :=
  if s = ThermalState.cooldown then
    if maxTemp < cfg.cooldownTemp then ThermalState.normal else ThermalState.cooldown
  else if cfg.criticalTemp ≤ maxTemp then ThermalState.critical
  else if cfg.warningTemp ≤ maxTemp then ThermalState.warning
  else ThermalState.normal

/-- `ThermalMonitor.trigger_cooldown` (thermal.py:287-293): unconditionally sets the state
to `COOLDOWN`. -/
def triggerCooldown (_s : ThermalState) : ThermalState := ThermalState.cooldown

/-! ## Transport initialization (`src/orchestrator/ipc.py`) -/

/-- The six shared-memory files of `IPCManager.shm_paths`; `none` means the path does not
exist, `some s` means the file exists with content `s`. -/
structure ShmFiles where
  asrIn : Option String
  asrOut : Option String
  llmIn : Option String
  llmOut : Option String
  ttsIn : Option String
  ttsOut : Option String
deriving DecidableEq, Repr

/-- `Path(path).touch(exist_ok=True)`: creates an empty file if the path is absent and
leaves an existing file's content unchanged (it only updates timestamps). -/
def touchFile : Option String → Option String
  | none => some ""
  | some s => some s

/-- `IPCManager.initialize` (ipc.py:57-74): touches each of the six shared-memory files.
(`os.makedirs("/dev/shm", exist_ok=True)` is directory-level and not modelled.) -/
def ipcInitialize (fs : ShmFiles) : ShmFiles :=
  { asrIn := touchFile fs.asrIn
    asrOut := touchFile fs.asrOut
    llmIn := touchFile fs.llmIn
    llmOut := touchFile fs.llmOut
    ttsIn := touchFile fs.ttsIn
    ttsOut := touchFile fs.ttsOut }

/-- `IPCManager._get_next_request_id` (ipc.py:230-233): increments the process-local
counter (initialized to 0 in `__init__`) and returns it, so ids run 1, 2, 3, …
Returns `(new counter value, issued id)`. -/
def getNextRequestId (counter : ℕ) : ℕ × ℕ := (counter + 1, counter + 1)

/-! ## The per-call lock of `IPCManager._write_request` (ipc.py:132-157)

`_write_request` wraps the write of `<service>_in` in `async with asyncio.Lock():` — the
lock object is constructed *fresh on every call*, so two concurrent calls to the same
service each acquire their own private lock.  The model below runs two concurrent
`call_service` invocations for one service as a two-process transition system; process `p`'s
lock is its own field (`lock1`/`lock2`), because the source gives each call a distinct lock
object.  A call's *window* spans from its write of `<service>_in` (inside the `async with`)
to its clearing of `<service>_out` (in `_wait_for_response`). -/

/-- Program counter of one `call_service` invocation:
`idle` (not started) → `holding` (acquired its own fresh lock) →
`inWindow` (wrote `<service>_in`, released the lock, polling for the response) →
`done` (read and cleared `<service>_out`). -/
inductive CallPC where
  | idle
  | holding
  | inWindow
  | done
deriving DecidableEq, Repr

/-- Joint state of two concurrent `call_service` invocations to the same service. -/
structure TwoCalls where
  pc1 : CallPC
  pc2 : CallPC
  lock1 : Bool
  lock2 : Bool
deriving DecidableEq, Repr

/-- Initial state: neither call has started; both fresh locks are free. -/
def twoCallsInit : TwoCalls := ⟨CallPC.idle, CallPC.idle, false, false⟩

/-- One atomic step of the first call: acquire own lock / write input file and release /
clear output file.  Guards mirror `asyncio.Lock` semantics (acquire blocks while held). -/
def stepCall1 (s : TwoCalls) : TwoCalls :=
  match s.pc1 with
  | CallPC.idle => if s.lock1 then s else { s with pc1 := CallPC.holding, lock1 := true }
  | CallPC.holding => { s with pc1 := CallPC.inWindow, lock1 := false }
  | CallPC.inWindow => { s with pc1 := CallPC.done }
  | CallPC.done => s

/-- One atomic step of the second call (symmetric, over its own fresh lock). -/
def stepCall2 (s : TwoCalls) : TwoCalls :=
  match s.pc2 with
  | CallPC.idle => if s.lock2 then s else { s with pc2 := CallPC.holding, lock2 := true }
  | CallPC.holding => { s with pc2 := CallPC.inWindow, lock2 := false }
  | CallPC.inWindow => { s with pc2 := CallPC.done }
  | CallPC.done => s

/-- Run a concrete interleaving: `true` schedules a step of call 1, `false` of call 2. -/
def runSchedule (sched : List Bool) : TwoCalls :=
  sched.foldl (fun s b => if b then stepCall1 s else stepCall2 s) twoCallsInit

/-- A call is inside its request window (has written `<service>_in`, has not yet cleared
`<service>_out`). -/
def inWindow (pc : CallPC) : Bool := pc = CallPC.inWindow

/-! ## Voice pipeline (`src/orchestrator/pipeline.py`)

`VoicePipeline.process_voice_input` (pipeline.py:132-314) is a straight-line `try` block of
seven steps; any uncaught exception falls to the `except` clause (pipeline.py:311-314),
which increments `failed_requests` and re-raises.  Effectful calls (worker requests via
`ipc.call_service`, database commits, the measured wall-clock flag) are resolved by an
`Oracle`; the embedding then follows the source's control flow and records
* the outcome (`Except`: the re-raised exception's message, or the result dict),
* the ordered list of observable effects (`Ev`),
* the ordered list of keys inserted into the `timing` dict (values are wall-clock floats
  and stay outside the embedding; which keys get inserted is pure control flow),
* the updated metrics counters.
-/

/-- One context turn as returned by `Database.get_user_context` (role + content; the
timestamp column is irrelevant to prompt assembly). -/
structure Msg where
  role : String
  content : String
deriving DecidableEq, Repr

/-- One structured function call from the LLM worker's `function_calls` field.  The
`arguments` map is opaque to the dispatch logic of `_execute_function_calls` (it only
forwards them); its effect on `create_reminder` is absorbed into the reminder oracle. -/
structure FuncCall where
  name : String
deriving DecidableEq, Repr

/-- The fields of the LLM worker's result dict read by the pipeline:
`llm_result.get("text", "")`, `.get("function_calls", [])`, `.get("tokens", 0)`. -/
structure LlmResult where
  text : String
  functionCalls : List FuncCall
  tokens : ℕ
deriving DecidableEq, Repr

/-- Observable effects of one `process_voice_input` run, in program order.
`asrCall`/`llmCall`/`ttsCall` mark a request issued to the worker (recorded even when the
call then raises); `addMsg role` marks a turn committed by `Database.add_message`
(recorded only when the insert succeeds — a raising insert mutates nothing);
the function-call events mirror the four dispatch branches of `_execute_function_calls`. -/
inductive Ev where
  | asrCall
  | ctxFetch
  | llmCall
  | funcExec (name : String)
  | reminderCreated
  | reminderFailed
  | vaultRequested
  | mediaRequested
  | unknownFunc (name : String)
  | addMsg (role : String)
  | ttsCall
deriving DecidableEq, Repr

/-- Environment oracle for one `process_voice_input` run: the outcome of each effectful
call, in the order the source can issue them.  `Except.error e` models the call raising an
exception with message `e` (timeout, transport error, or worker error all surface as a
raised exception to the pipeline).  `reminder i` is the outcome of the `i`-th
`create_reminder` dispatch; `llmTimePos` is the measured `llm_time > 0` test (wall clock). -/
structure Oracle where
  asr : Except String String
  getCtx : Except String (List Msg)
  llm : Except String LlmResult
  reminder : ℕ → Except String ℕ
  addUser : Except String Unit
  addAssistant : Except String Unit
  tts : Except String String
  llmTimePos : Bool

/-- The pipeline metrics counters of `VoicePipeline._metrics` touched by request
accounting: `total_requests`, `successful_requests`, `failed_requests`.  (The float-valued
rolling averages of `_update_metrics` are wall-clock arithmetic and stay outside the
embedding.) -/
structure Metrics where
  totalRequests : ℕ
  successfulRequests : ℕ
  failedRequests : ℕ
deriving DecidableEq, Repr

/-- Metrics at process start (pipeline.py:51-59). -/
def initMetrics : Metrics := ⟨0, 0, 0⟩

/-- The `except` clause of `process_voice_input` (pipeline.py:311-314):
`self._metrics["failed_requests"] += 1` and re-raise. -/
def failMetrics (m : Metrics) : Metrics :=
  { m with failedRequests := m.failedRequests + 1 }

/-- `VoicePipeline._update_metrics` (pipeline.py:446-476), counter part: on the success
path both `total_requests` and `successful_requests` are incremented. -/
def updateMetrics (m : Metrics) : Metrics :=
  { m with totalRequests := m.totalRequests + 1
           successfulRequests := m.successfulRequests + 1 }

/-- `VoicePipeline._execute_function_calls` (pipeline.py:417-444): dispatch each call by
name; `set_reminder` invokes `database.create_reminder` (its exception is caught by the
per-call `try`/`except` and only logged), `access_vault` and `play_media` only log, any
other name logs "Unknown function call".  The function is total: no call can raise out of
it.  `i` indexes the reminder oracle. -/
def executeFunctionCalls (reminder : ℕ → Except String ℕ) :
    List FuncCall → ℕ → List Ev
  | [], _ => []
  | c :: cs, i =>
    Ev.funcExec c.name ::
      (if c.name = "set_reminder" then
        [match reminder i with
          | Except.ok _ => Ev.reminderCreated
          | Except.error _ => Ev.reminderFailed]
      else if c.name = "access_vault" then [Ev.vaultRequested]
      else if c.name = "play_media" then [Ev.mediaRequested]
      else [Ev.unknownFunc c.name]) ++ executeFunctionCalls reminder cs (i + 1)

/-- The success dict returned by `process_voice_input` (pipeline.py:301-309), restricted
to the pipeline-derived fields. -/
structure PipelineSuccess where
  transcription : String
  responseText : String
  functionCalls : List FuncCall
  audioData : String
deriving DecidableEq, Repr

/-- Result of one embedded `process_voice_input` run. -/
structure RunResult where
  outcome : Except String PipelineSuccess
  events : List Ev
  timingKeys : List String
  metrics : Metrics

/-- `VoicePipeline.process_voice_input` (pipeline.py:165-314), the seven-step `try` block:

1. ASR via `call_service`; `timing["asr"]` is set only after the call returns.
2. `database.get_user_context`; then `timing["context_retrieval"]`.
3. LLM via `call_service`; `timing["llm"]`, and `timing["llm_tokens_per_second"]` only
   when `llm_time > 0 and tokens_generated > 0`.
4. If `function_calls` is non-empty: `_execute_function_calls`, then
   `timing["function_execution"]`.
5. `add_message(user)`, `add_message(assistant)`, then `timing["context_update"]`.
6. TTS via `call_service`; `timing["tts"]`.
7. `timing["total"]`, `timing["orchestration_overhead"]`, `_update_metrics`, return.

Any exception reaches the `except` clause: `failed_requests += 1`, re-raise.  There is no
inner handler anywhere in the block. -/
def processVoiceInput (o : Oracle) (m : Metrics) : RunResult :=
  match o.asr with
  | Except.error e => ⟨Except.error e, [Ev.asrCall], [], failMetrics m⟩
  | Except.ok transcription =>
    match o.getCtx with
    | Except.error e =>
        ⟨Except.error e, [Ev.asrCall, Ev.ctxFetch], ["asr"], failMetrics m⟩
    | Except.ok _ctx =>
      match o.llm with
      | Except.error e =>
          ⟨Except.error e, [Ev.asrCall, Ev.ctxFetch, Ev.llmCall],
            ["asr", "context_retrieval"], failMetrics m⟩
      | Except.ok r =>
        let keysLlm := ["asr", "context_retrieval", "llm"] ++
          (if o.llmTimePos && decide (0 < r.tokens) then ["llm_tokens_per_second"] else [])
        let funcEvs :=
          if r.functionCalls.isEmpty then [] else executeFunctionCalls o.reminder r.functionCalls 0
        let keysFunc := keysLlm ++
          (if r.functionCalls.isEmpty then [] else ["function_execution"])
        let evsFunc := [Ev.asrCall, Ev.ctxFetch, Ev.llmCall] ++ funcEvs
        match o.addUser with
        | Except.error e => ⟨Except.error e, evsFunc, keysFunc, failMetrics m⟩
        | Except.ok _ =>
          match o.addAssistant with
          | Except.error e =>
              ⟨Except.error e, evsFunc ++ [Ev.addMsg "user"], keysFunc, failMetrics m⟩
          | Except.ok _ =>
            let evsCtx := evsFunc ++ [Ev.addMsg "user", Ev.addMsg "assistant"]
            let keysCtx := keysFunc ++ ["context_update"]
            match o.tts with
            | Except.error e =>
                ⟨Except.error e, evsCtx ++ [Ev.ttsCall], keysCtx, failMetrics m⟩
            | Except.ok audio =>
                ⟨Except.ok ⟨transcription, r.text, r.functionCalls, audio⟩,
                  evsCtx ++ [Ev.ttsCall],
                  keysCtx ++ ["tts", "total", "orchestration_overhead"],
                  updateMetrics m⟩

/-- Fold a sequence of requests through the pipeline's metrics accounting. -/
def runRequests (os : List Oracle) (m : Metrics) : Metrics :=
  os.foldl (fun acc o => (processVoiceInput o acc).metrics) m

/-! ## Context store (`src/database/db.py`)

A user's conversation history is the list of rows of the `messages` table for that user in
insertion (rowid) order.  `Database.add_message` (db.py:153-172) appends one row; the
`timestamp` column is filled by the table's default (the schema file `schema.sql` is not
part of the sources; per the spec, timestamps form a non-decreasing sequence with ties
allowed, so the timestamp of an appended turn is an input here).

`Database.get_user_context` (db.py:116-151) runs
`SELECT … ORDER BY timestamp DESC LIMIT ?` and reverses the rows.  The `ORDER BY` has no
secondary key, so SQL fixes only the timestamp order; the embedding resolves the
tie order as a *stable* descending sort over insertion order (equal timestamps keep their
rowid order), the canonical deterministic reading of a sort over a table scanned in rowid
order. -/

/-- One row of the `messages` table (fields read by `get_user_context`), tagged with its
timestamp; list position = insertion (rowid) order. -/
structure Turn where
  role : String
  content : String
  timestamp : ℕ
deriving DecidableEq, Repr

/-- Insert a turn into a descending-by-timestamp list, placing it *after* existing turns
with an equal timestamp (stability over insertion order). -/
def insertDesc (x : Turn) : List Turn → List Turn
  | [] => [x]
  | y :: ys =>
    if y.timestamp < x.timestamp then x :: y :: ys else y :: insertDesc x ys

/-- Stable descending sort by timestamp of the insertion-ordered rows:
the embedding of `ORDER BY timestamp DESC` over a table scanned in rowid order. -/
def sortDescByTimestamp (msgs : List Turn) : List Turn :=
  msgs.foldl (fun acc x => insertDesc x acc) []

/-- `Database.get_user_context` (db.py:116-151): `ORDER BY timestamp DESC LIMIT max_messages`,
then `reversed(rows)` — "Reverse to get chronological order". -/
def getUserContext (maxMessages : ℕ) (msgs : List Turn) : List Turn :=
  ((sortDescByTimestamp msgs).take maxMessages).reverse

/-- `Database.add_message` (db.py:153-172): append one row; `ts` is the timestamp the
table default assigns at insert time. -/
def addMessage (msgs : List Turn) (role content : String) (ts : ℕ) : List Turn :=
  msgs ++ [⟨role, content, ts⟩]

/-- The spec's described retrieval ("the newest K turns for a user returned in
chronological order (oldest first)"): keep the last `k` appended turns in insertion
order. -/
def newestK (k : ℕ) (msgs : List Turn) : List Turn :=
  (msgs.reverse.take k).reverse

/-! ## Prompt assembly (`src/llm-service/inference.py`)

`LLMService._build_prompt_with_context` (inference.py:299-319) runs in the LLM worker; the
coordinator only ships `{"prompt": transcription, "context": user_context, …}` to it
(pipeline.py:204-214). -/

/-- Python `context[-5:]`: the last `n` elements (the whole list when shorter). -/
def lastN (n : ℕ) (l : List Msg) : List Msg := l.drop (l.length - n)

/-- The loop body `context_str += f"{role}: {content}\n"`. -/
def renderTurn (m : Msg) : String := m.role ++ ": " ++ m.content ++ "\n"

/-- `LLMService._build_prompt_with_context` (inference.py:299-319):

```
context_str = ""
for msg in context[-5:]:
    context_str += f"{role}: {content}\n"
full_prompt = f"{context_str}user: {prompt}\nassistant: "
```
-/
def buildPromptWithContext (prompt : String) (context : List Msg) : String :=
  (lastN 5 context).foldl (fun acc m => acc ++ renderTurn m) "" ++
    "user: " ++ prompt ++ "\nassistant: "

/-- Spec-literal prompt assembly, following the spec's words verbatim: "concatenating the
last five context turns (roles tagged literally as `user` / `assistant`), a newline, and
the current user prompt followed by the literal trailing marker `assistant: `". -/
def specPromptLiteral (prompt : String) (context : List Msg) : String :=
  (lastN 5 context).foldl (fun acc m => acc ++ renderTurn m) "" ++
    "\n" ++ prompt ++ "assistant: "

/-- Amended spec-side assembly: the last five context turns and then the current prompt
*as a further `user`-tagged turn* are each rendered `role: content` + newline, and the
trailing marker `assistant: ` is appended. -/
def specPromptAmended (prompt : String) (context : List Msg) : String :=
  (lastN 5 context ++ [Msg.mk "user" prompt]).foldl (fun acc m => acc ++ renderTurn m) "" ++
    "assistant: "

/-! # Theorems -/

/-- C1 counterexample: the claim says that from `Critical` the state remains `Critical`
for every reading until `trigger_cooldown()` is invoked.  In `_update_state`, however, the
`Critical` case falls through to the plain temperature cascade: with the default
thresholds (warn 75, critical 85, cooldown 70) a reading of 60 °C taken in state
`Critical` moves the state straight to `Normal` — temperature alone exits `Critical`. -/
theorem C1_critical_sticky_counterexample :
    updateState defaultThermalConfig ThermalState.critical 60 = ThermalState.normal ∧
    ThermalState.normal ≠ ThermalState.critical := by
  refine ⟨?_, by decide⟩
  simp only [updateState, defaultThermalConfig]
  norm_num

/-- C1 (amended): the state-update step treats `Cooldown` specially (`Normal` exactly when
`max_temp < cooldown`, else stays `Cooldown`), and treats `Normal`, `Warning` and
`Critical` all identically by the pure temperature cascade — `Critical` when
`max_temp ≥ critical`, `Warning` when `warn ≤ max_temp < critical`, `Normal` below `warn`.
`Critical` is not sticky: it transitions exactly as `Normal` does.  `trigger_cooldown()`
sets the state to `Cooldown` from any state. -/
theorem C1_thermal_state_machine (cfg : ThermalConfig) (s : ThermalState) (t : ℚ) :
    updateState cfg ThermalState.cooldown t =
      (if t < cfg.cooldownTemp then ThermalState.normal else ThermalState.cooldown) ∧
    updateState cfg ThermalState.normal t =
      (if cfg.criticalTemp ≤ t then ThermalState.critical
       else if cfg.warningTemp ≤ t then ThermalState.warning
       else ThermalState.normal) ∧
    updateState cfg ThermalState.warning t = updateState cfg ThermalState.normal t ∧
    updateState cfg ThermalState.critical t = updateState cfg ThermalState.normal t ∧
    triggerCooldown s = ThermalState.cooldown := by
  refine ⟨?_, ?_, ?_, ?_, rfl⟩ <;> simp [updateState]

/-- C4 counterexample: on the concrete input `prompt = "hi"`, empty context, the prompt the
code builds (`"user: hi\nassistant: "`) differs from the spec's literal assembly ("the last
five context turns, a newline, and the current user prompt followed by the trailing marker
`assistant: `", which yields `"\nhiassistant: "`). -/
theorem C4_prompt_literal_counterexample :
    buildPromptWithContext "hi" [] ≠ specPromptLiteral "hi" [] := by
  decide

/-- C4 (amended): the prompt is assembled by the LLM worker (the coordinator only forwards
the transcription and retrieved context): each of the last five context turns *and then
the current user prompt as a further `user`-tagged turn* is rendered `role: content`
followed by a newline, and the literal trailing marker `assistant: ` is appended, with no
further templating. -/
theorem C4_prompt_assembly (prompt : String) (context : List Msg) :
    buildPromptWithContext prompt context = specPromptAmended prompt context := by
  unfold buildPromptWithContext specPromptAmended
  rw [List.foldl_append]
  simp only [List.foldl_cons, List.foldl_nil, renderTurn]
  rw [show ("user: " : String) = "user" ++ ": " from rfl,
      show ("\nassistant: " : String) = "\n" ++ "assistant: " from rfl]
  simp only [String.append_assoc]

/-- C5: `IPCManager.initialize` uses `Path(path).touch(exist_ok=True)`, which creates a
missing file empty but leaves an existing file's content untouched, contradicting the
routine's own comments ("Create/clear shared memory files", "Create empty file").
Evaluating the code at the failing input — `asr_in` pre-existing with content `"stale"` —
shows that after `initialize()`, and equally after calling it twice, the file still holds
`"stale"` rather than being empty; a missing file is created empty, and request ids are
issued monotonically from 1 by `_get_next_request_id`. -/
theorem C5_initialize_does_not_truncate :
    (ipcInitialize ⟨some "stale", none, none, none, none, none⟩).asrIn = some "stale" ∧
    (ipcInitialize (ipcInitialize ⟨some "stale", none, none, none, none, none⟩)).asrIn
      = some "stale" ∧
    some "stale" ≠ (some "" : Option String) ∧
    (ipcInitialize ⟨some "stale", none, none, none, none, none⟩).llmIn = some "" ∧
    getNextRequestId 0 = (1, 1) ∧
    getNextRequestId (getNextRequestId 0).1 = (2, 2) := by
  decide

/-- C9: `IPCManager._write_request` guards the write of `<service>_in` with
`async with asyncio.Lock():` — a lock object constructed fresh on every call, so two
concurrent calls to the same service acquire *distinct* locks and exclude nothing
(contradicting the adjacent comment "Ensure atomic writes").  In the two-call transition
system, the interleaving "call 1: acquire, write; call 2: acquire, write" is reachable and
ends with both calls simultaneously inside their request window (between writing
`<service>_in` and clearing `<service>_out`), refuting the claimed per-service
serialization. -/
theorem C9_write_windows_overlap :
    inWindow (runSchedule [true, true, false, false]).pc1 = true ∧
    inWindow (runSchedule [true, true, false, false]).pc2 = true := by
  decide

/-! ### Context chronology (C6) -/

/-- Inserting an element whose timestamp strictly dominates the head prepends it. -/
theorem insertDesc_of_forall_lt (x : Turn) (ys : List Turn)
    (h : ∀ y ∈ ys, y.timestamp < x.timestamp) : insertDesc x ys = x :: ys := by
  cases ys with
  | nil => rfl
  | cons y ys => simp [insertDesc, h y (by simp)]

/-- On a list with strictly increasing timestamps, the stable descending sort is exactly
list reversal. -/
theorem sortDescByTimestamp_of_strict_mono (msgs : List Turn)
    (h : List.Pairwise (fun a b => a.timestamp < b.timestamp) msgs) :
    sortDescByTimestamp msgs = msgs.reverse := by
  induction msgs using List.reverseRecOn with
  | nil => rfl
  | append_singleton l x ih =>
    rw [List.pairwise_append] at h
    obtain ⟨hl, -, hlx⟩ := h
    have hstep : sortDescByTimestamp (l ++ [x]) = insertDesc x (sortDescByTimestamp l) := by
      simp [sortDescByTimestamp, List.foldl_append]
    rw [hstep, ih hl, insertDesc_of_forall_lt x l.reverse
      (fun y hy => hlx y (List.mem_reverse.mp hy) x (by simp))]
    simp

/-- A concrete conversation where three turns share one timestamp. -/
def tiedTurns : List Turn :=
  [⟨"user", "a", 5⟩, ⟨"assistant", "b", 5⟩, ⟨"user", "c", 5⟩]

/-- C6 counterexample: with three turns appended at the same timestamp and `K = 2`,
`get_user_context` (which sorts `ORDER BY timestamp DESC` with no tie-break and reverses)
returns `[b, a]` — neither the newest two turns `[b, c]`, nor insertion order among the
ties, and its last element is the *first* appended turn rather than the most recent one. -/
theorem C6_context_ties_counterexample :
    getUserContext 2 tiedTurns ≠ newestK 2 tiedTurns ∧
    (getUserContext 2 tiedTurns).getLast? ≠ tiedTurns.getLast? := by
  decide

/-- C6 (amended): when the user's timestamps are *strictly* increasing (no ties),
`get_user_context` returns exactly the newest `K` appended turns in chronological order
(oldest first), and — when `K > 0` and the history is non-empty — its last element is the
most recently appended turn.  With tied timestamps the query fixes no tie order and the
returned window can both omit the newest tied turn and reverse insertion order among the
ties. -/
theorem C6_context_chronology (k : ℕ) (msgs : List Turn)
    (h : List.Pairwise (fun a b => a.timestamp < b.timestamp) msgs) :
    getUserContext k msgs = newestK k msgs ∧
    (0 < k → msgs ≠ [] → (getUserContext k msgs).getLast? = msgs.getLast?) := by
  have hmain : getUserContext k msgs = newestK k msgs := by
    unfold getUserContext newestK
    rw [sortDescByTimestamp_of_strict_mono msgs h]
  refine ⟨hmain, fun hk hne => ?_⟩
  rw [hmain]
  unfold newestK
  rw [List.getLast?_reverse]
  obtain ⟨k', rfl⟩ : ∃ k', k = k' + 1 := ⟨k - 1, by omega⟩
  have : msgs.reverse ≠ [] := by simpa using hne
  obtain ⟨y, ys, hys⟩ := List.exists_cons_of_ne_nil this
  rw [hys, List.take_succ_cons]
  have := List.head?_reverse msgs
  rw [hys] at this
  simpa using this

/-- C6 witness: a two-turn history with strictly increasing timestamps, `K = 1`. -/
theorem C6_context_chronology_witness :
    getUserContext 1 [⟨"user", "q", 1⟩, ⟨"assistant", "r", 2⟩] =
      newestK 1 [⟨"user", "q", 1⟩, ⟨"assistant", "r", 2⟩] ∧
    (getUserContext 1 [⟨"user", "q", 1⟩, ⟨"assistant", "r", 2⟩]).getLast? =
      ([⟨"user", "q", 1⟩, ⟨"assistant", "r", 2⟩] : List Turn).getLast? := by
  refine ⟨(C6_context_chronology 1 _ (by decide)).1,
    (C6_context_chronology 1 _ (by decide)).2 (by decide) (by decide)⟩

/-! ### Pipeline theorems (C2, C3, C7, C8, C10) -/

/-- `_execute_function_calls` never issues a TTS request: every event it produces comes
from one of its four dispatch branches. -/
theorem ttsCall_not_mem_executeFunctionCalls (reminder : ℕ → Except String ℕ)
    (calls : List FuncCall) (i : ℕ) :
    Ev.ttsCall ∉ executeFunctionCalls reminder calls i := by
  induction calls generalizing i with
  | nil => simp [executeFunctionCalls]
  | cons c cs ih =>
    intro h
    rcases List.mem_cons.mp h with h | h
    · exact absurd h (by simp)
    · rcases List.mem_append.mp h with h | h
      · revert h
        split
        · rcases reminder i with _ | _ <;> simp
        · split
          · simp
          · split <;> simp
      · exact ih (i + 1) h

/-- `_execute_function_calls` never commits a conversation turn: only step 5 does. -/
theorem addMsg_not_mem_executeFunctionCalls (reminder : ℕ → Except String ℕ)
    (calls : List FuncCall) (i : ℕ) (role : String) :
    Ev.addMsg role ∉ executeFunctionCalls reminder calls i := by
  induction calls generalizing i with
  | nil => simp [executeFunctionCalls]
  | cons c cs ih =>
    intro h
    rcases List.mem_cons.mp h with h | h
    · exact absurd h (by simp)
    · rcases List.mem_append.mp h with h | h
      · revert h
        split
        · rcases reminder i with _ | _ <;> simp
        · split
          · simp
          · split <;> simp
      · exact ih (i + 1) h

/-- C7: if the ASR stage raises, or the LLM stage raises after ASR and context retrieval
succeeded, the pipeline fails with that error, no conversation turn is committed, no
function call is dispatched, no TTS request is issued, and only `failed_requests` is
incremented. -/
theorem C7_asr_llm_failure_isolation :
    (∀ (err : String) (gc : Except String (List Msg)) (lr : Except String LlmResult)
        (reminder : ℕ → Except String ℕ) (au aa : Except String Unit)
        (tts : Except String String) (b : Bool) (m : Metrics),
      (processVoiceInput ⟨Except.error err, gc, lr, reminder, au, aa, tts, b⟩ m).outcome
          = Except.error err ∧
      (∀ role, Ev.addMsg role ∉
        (processVoiceInput ⟨Except.error err, gc, lr, reminder, au, aa, tts, b⟩ m).events) ∧
      (∀ n, Ev.funcExec n ∉
        (processVoiceInput ⟨Except.error err, gc, lr, reminder, au, aa, tts, b⟩ m).events) ∧
      Ev.ttsCall ∉
        (processVoiceInput ⟨Except.error err, gc, lr, reminder, au, aa, tts, b⟩ m).events ∧
      (processVoiceInput ⟨Except.error err, gc, lr, reminder, au, aa, tts, b⟩ m).metrics
          = failMetrics m) ∧
    (∀ (t : String) (c : List Msg) (err : String)
        (reminder : ℕ → Except String ℕ) (au aa : Except String Unit)
        (tts : Except String String) (b : Bool) (m : Metrics),
      (processVoiceInput ⟨Except.ok t, Except.ok c, Except.error err, reminder, au, aa, tts, b⟩
          m).outcome = Except.error err ∧
      (∀ role, Ev.addMsg role ∉
        (processVoiceInput ⟨Except.ok t, Except.ok c, Except.error err, reminder, au, aa, tts, b⟩
          m).events) ∧
      (∀ n, Ev.funcExec n ∉
        (processVoiceInput ⟨Except.ok t, Except.ok c, Except.error err, reminder, au, aa, tts, b⟩
          m).events) ∧
      Ev.ttsCall ∉
        (processVoiceInput ⟨Except.ok t, Except.ok c, Except.error err, reminder, au, aa, tts, b⟩
          m).events ∧
      (processVoiceInput ⟨Except.ok t, Except.ok c, Except.error err, reminder, au, aa, tts, b⟩
          m).metrics = failMetrics m) := by
  constructor <;> intros <;> refine ⟨rfl, ?_, ?_, ?_, rfl⟩ <;> simp [processVoiceInput]

/-- C8: function-call handling never fails the pipeline.  First, a call whose name is not
among `set_reminder`, `access_vault`, `play_media` only produces the dispatch log and the
"Unknown function call" warning — no handler runs, and `_execute_function_calls` is total,
so it cannot raise.  Second, for *every* list of function calls returned by the LLM worker
and *every* outcome of the `create_reminder` dispatches (including all of them raising),
the pipeline still commits both context turns of step 5, issues the TTS request of step 6,
and succeeds. -/
theorem C8_function_call_isolation :
    (∀ (reminder : ℕ → Except String ℕ) (i : ℕ) (name : String),
      name ∉ ["set_reminder", "access_vault", "play_media"] →
      executeFunctionCalls reminder [⟨name⟩] i = [Ev.funcExec name, Ev.unknownFunc name]) ∧
    (∀ (t : String) (c : List Msg) (r : LlmResult) (reminder : ℕ → Except String ℕ)
        (tts : String) (b : Bool) (m : Metrics),
      (processVoiceInput ⟨Except.ok t, Except.ok c, Except.ok r, reminder,
          Except.ok (), Except.ok (), Except.ok tts, b⟩ m).outcome
        = Except.ok ⟨t, r.text, r.functionCalls, tts⟩ ∧
      Ev.addMsg "user" ∈ (processVoiceInput ⟨Except.ok t, Except.ok c, Except.ok r, reminder,
          Except.ok (), Except.ok (), Except.ok tts, b⟩ m).events ∧
      Ev.addMsg "assistant" ∈ (processVoiceInput ⟨Except.ok t, Except.ok c, Except.ok r, reminder,
          Except.ok (), Except.ok (), Except.ok tts, b⟩ m).events ∧
      Ev.ttsCall ∈ (processVoiceInput ⟨Except.ok t, Except.ok c, Except.ok r, reminder,
          Except.ok (), Except.ok (), Except.ok tts, b⟩ m).events) := by
  constructor
  · intro reminder i name hname
    have h1 : ¬ name = "set_reminder" := by intro h; exact hname (by simp [h])
    have h2 : ¬ name = "access_vault" := by intro h; exact hname (by simp [h])
    have h3 : ¬ name = "play_media" := by intro h; exact hname (by simp [h])
    simp [executeFunctionCalls, h1, h2, h3]
  · intro t c r reminder tts b m
    refine ⟨rfl, ?_, ?_, ?_⟩ <;> simp [processVoiceInput]

/-- C8 witness: the unrecognized name `"frobnicate"` is dispatched to the warning branch
only, with a failing reminder oracle in scope. -/
theorem C8_function_call_isolation_witness :
    executeFunctionCalls (fun _ => Except.error "db down") [⟨"frobnicate"⟩] 0 =
      [Ev.funcExec "frobnicate", Ev.unknownFunc "frobnicate"] :=
  C8_function_call_isolation.1 (fun _ => Except.error "db down") 0 "frobnicate" (by decide)

/-- A run whose step-5 context append (the user turn) raises, all other stages healthy. -/
def oracleStep5Fail : Oracle :=
  ⟨Except.ok "hello", Except.ok [], Except.ok ⟨"Hi.", [], 1⟩, fun _ => Except.ok 1,
    Except.error "disk full", Except.ok (), Except.ok "AUDIO", true⟩

/-- C2 counterexample: the claim says a store error in the step-5 context append is logged
as a warning and the pipeline still attempts TTS.  Evaluating the code on a run whose
`add_message` for the user turn raises `"disk full"` shows the pipeline instead fails with
that error and never issues the TTS request — there is no handler around step 5, so the
exception reaches the outer `except` clause. -/
theorem C2_step5_failure_counterexample :
    (processVoiceInput oracleStep5Fail initMetrics).outcome = Except.error "disk full" ∧
    Ev.ttsCall ∉ (processVoiceInput oracleStep5Fail initMetrics).events ∧
    (processVoiceInput oracleStep5Fail initMetrics).metrics = failMetrics initMetrics := by
  refine ⟨rfl, ?_, rfl⟩
  decide

/-- C2 (amended): if either `add_message` of step 5 raises, the exception propagates: the
pipeline fails with that error, the TTS stage is never attempted, and `failed_requests` is
incremented — regardless of every other stage outcome.  (When the user-turn append raises,
the assistant turn is not committed either.) -/
theorem C2_step5_failure_propagates
    (t : String) (c : List Msg) (r : LlmResult) (reminder : ℕ → Except String ℕ)
    (err : String) (aa : Except String Unit) (tts : Except String String)
    (b : Bool) (m : Metrics) :
    ((processVoiceInput ⟨Except.ok t, Except.ok c, Except.ok r, reminder,
        Except.error err, aa, tts, b⟩ m).outcome = Except.error err ∧
      Ev.ttsCall ∉ (processVoiceInput ⟨Except.ok t, Except.ok c, Except.ok r, reminder,
        Except.error err, aa, tts, b⟩ m).events ∧
      (∀ role, Ev.addMsg role ∉ (processVoiceInput ⟨Except.ok t, Except.ok c, Except.ok r,
        reminder, Except.error err, aa, tts, b⟩ m).events) ∧
      (processVoiceInput ⟨Except.ok t, Except.ok c, Except.ok r, reminder,
        Except.error err, aa, tts, b⟩ m).metrics = failMetrics m) ∧
    ((processVoiceInput ⟨Except.ok t, Except.ok c, Except.ok r, reminder,
        Except.ok (), Except.error err, tts, b⟩ m).outcome = Except.error err ∧
      Ev.ttsCall ∉ (processVoiceInput ⟨Except.ok t, Except.ok c, Except.ok r, reminder,
        Except.ok (), Except.error err, tts, b⟩ m).events ∧
      (processVoiceInput ⟨Except.ok t, Except.ok c, Except.ok r, reminder,
        Except.ok (), Except.error err, tts, b⟩ m).metrics = failMetrics m) := by
  refine ⟨⟨rfl, ?_, ?_, rfl⟩, rfl, ?_, rfl⟩ <;>
    simp [processVoiceInput, ttsCall_not_mem_executeFunctionCalls,
      addMsg_not_mem_executeFunctionCalls]

/-- A run whose TTS stage raises after every earlier stage succeeded. -/
def oracleTtsFail : Oracle :=
  ⟨Except.ok "hello", Except.ok [], Except.ok ⟨"Hi.", [], 1⟩, fun _ => Except.ok 1,
    Except.ok (), Except.ok (), Except.error "tts boom", true⟩

/-- A fully healthy run. -/
def oracleOk : Oracle :=
  ⟨Except.ok "hello", Except.ok [], Except.ok ⟨"Hi.", [], 1⟩, fun _ => Except.ok 1,
    Except.ok (), Except.ok (), Except.ok "AUDIO", true⟩

/-- C3 counterexample: the claim says every failure's timing map carries a final `total`
entry.  Evaluating the code on a run whose TTS stage raises (all earlier stages complete)
shows the pipeline re-raises the bare exception and the timing map holds only the keys of
the completed stages — `timing["total"]` is set on the success path only, after TTS. -/
theorem C3_timing_counterexample :
    (processVoiceInput oracleTtsFail initMetrics).outcome = Except.error "tts boom" ∧
    (processVoiceInput oracleTtsFail initMetrics).timingKeys =
      ["asr", "context_retrieval", "llm", "llm_tokens_per_second", "context_update"] ∧
    "total" ∉ (processVoiceInput oracleTtsFail initMetrics).timingKeys := by
  refine ⟨rfl, rfl, ?_⟩
  decide

/-- C3 (amended): on failure the timing map holds entries only for the stages completed
before the failing stage — never a `total` entry, which with `orchestration_overhead` is
written on the success path only — and the re-raised exception is the original error with
no timing attached; on success the timing map is fully populated (`asr`,
`context_retrieval`, `llm`, `context_update`, `tts`, `total`, `orchestration_overhead`,
plus the conditional `llm_tokens_per_second` and `function_execution` entries). -/
theorem C3_timing_map (o : Oracle) (m : Metrics) :
    (∀ e, (processVoiceInput o m).outcome = Except.error e →
      "total" ∉ (processVoiceInput o m).timingKeys) ∧
    (∀ s, (processVoiceInput o m).outcome = Except.ok s →
      ∀ key ∈ ["asr", "context_retrieval", "llm", "context_update", "tts", "total",
        "orchestration_overhead"], key ∈ (processVoiceInput o m).timingKeys) := by
  obtain ⟨asr, gc, llm, reminder, au, aa, tts, b⟩ := o
  constructor
  · intro e he
    cases asr with
    | error e1 => simp only [processVoiceInput]; decide
    | ok t =>
      cases gc with
      | error e1 => simp only [processVoiceInput]; decide
      | ok c =>
        cases llm with
        | error e1 => simp only [processVoiceInput]; decide
        | ok r =>
          cases au with
          | error e1 => simp only [processVoiceInput]; split_ifs <;> decide
          | ok u =>
            cases aa with
            | error e1 => simp only [processVoiceInput]; split_ifs <;> decide
            | ok v =>
              cases tts with
              | error e1 => simp only [processVoiceInput]; split_ifs <;> decide
              | ok audio => simp [processVoiceInput] at he
  · intro s hs
    cases asr with
    | error e1 => simp [processVoiceInput] at hs
    | ok t =>
      cases gc with
      | error e1 => simp [processVoiceInput] at hs
      | ok c =>
        cases llm with
        | error e1 => simp [processVoiceInput] at hs
        | ok r =>
          cases au with
          | error e1 => simp [processVoiceInput] at hs
          | ok u =>
            cases aa with
            | error e1 => simp [processVoiceInput] at hs
            | ok v =>
              cases tts with
              | error e1 => simp [processVoiceInput] at hs
              | ok audio =>
                simp only [processVoiceInput]
                split_ifs <;> decide

/-- C3 witness: the failing run of `oracleTtsFail` has no `total` key; the healthy run of
`oracleOk` has every obligatory key, `total` included. -/
theorem C3_timing_map_witness :
    "total" ∉ (processVoiceInput oracleTtsFail initMetrics).timingKeys ∧
    "total" ∈ (processVoiceInput oracleOk initMetrics).timingKeys := by
  refine ⟨(C3_timing_map oracleTtsFail initMetrics).1 "tts boom" rfl,
    (C3_timing_map oracleOk initMetrics).2 ⟨"hello", "Hi.", [], "AUDIO"⟩ rfl "total"
      (by decide)⟩

/-- Every run either reaches the `except` clause (error outcome, only `failed_requests`
incremented) or the success path (`_update_metrics`: `total_requests` and
`successful_requests` incremented together). -/
theorem processVoiceInput_metrics_dichotomy (o : Oracle) (m : Metrics) :
    ((∃ e, (processVoiceInput o m).outcome = Except.error e) ∧
      (processVoiceInput o m).metrics = failMetrics m) ∨
    ((∃ s, (processVoiceInput o m).outcome = Except.ok s) ∧
      (processVoiceInput o m).metrics = updateMetrics m) := by
  obtain ⟨asr, gc, llm, reminder, au, aa, tts, b⟩ := o
  cases asr with
  | error e => exact Or.inl ⟨⟨e, rfl⟩, rfl⟩
  | ok t =>
    cases gc with
    | error e => exact Or.inl ⟨⟨e, rfl⟩, rfl⟩
    | ok c =>
      cases llm with
      | error e => exact Or.inl ⟨⟨e, rfl⟩, rfl⟩
      | ok r =>
        cases au with
        | error e => exact Or.inl ⟨⟨e, rfl⟩, rfl⟩
        | ok u =>
          cases aa with
          | error e => exact Or.inl ⟨⟨e, rfl⟩, rfl⟩
          | ok v =>
            cases tts with
            | error e => exact Or.inl ⟨⟨e, rfl⟩, rfl⟩
            | ok audio => exact Or.inr ⟨⟨_, rfl⟩, rfl⟩

/-- Request accounting preserves `total_requests = successful_requests`. -/
theorem runRequests_total_eq_successful (os : List Oracle) :
    ∀ m : Metrics, m.totalRequests = m.successfulRequests →
      (runRequests os m).totalRequests = (runRequests os m).successfulRequests := by
  induction os with
  | nil => intro m h; simpa [runRequests] using h
  | cons o os ih =>
    intro m h
    have hstep : runRequests (o :: os) m = runRequests os (processVoiceInput o m).metrics :=
      rfl
    rw [hstep]
    apply ih
    rcases processVoiceInput_metrics_dichotomy o m with ⟨-, h'⟩ | ⟨-, h'⟩ <;>
      simp [h', failMetrics, updateMetrics, h]

/-- C10: a failing run increments only `failed_requests` and a successful run increments
`total_requests` together with `successful_requests` (and only those); hence after any
sequence of requests `total_requests = successful_requests`, and as soon as any request
has failed, `total_requests` differs from `successful_requests + failed_requests`. -/
theorem C10_total_counts_only_successes (os : List Oracle) :
    (runRequests os initMetrics).totalRequests =
      (runRequests os initMetrics).successfulRequests ∧
    (0 < (runRequests os initMetrics).failedRequests →
      (runRequests os initMetrics).totalRequests ≠
        (runRequests os initMetrics).successfulRequests +
          (runRequests os initMetrics).failedRequests) ∧
    (∀ (o : Oracle) (m : Metrics) (e : String),
      (processVoiceInput o m).outcome = Except.error e →
      (processVoiceInput o m).metrics = failMetrics m) ∧
    (∀ (o : Oracle) (m : Metrics) (s : PipelineSuccess),
      (processVoiceInput o m).outcome = Except.ok s →
      (processVoiceInput o m).metrics = updateMetrics m) := by
  have h1 := runRequests_total_eq_successful os initMetrics rfl
  refine ⟨h1, fun hpos => by omega, ?_, ?_⟩
  · intro o m e he
    rcases processVoiceInput_metrics_dichotomy o m with ⟨-, h'⟩ | ⟨⟨s, hs⟩, -⟩
    · exact h'
    · rw [he] at hs; cases hs
  · intro o m s hs
    rcases processVoiceInput_metrics_dichotomy o m with ⟨⟨e, he⟩, -⟩ | ⟨-, h'⟩
    · rw [hs] at he; cases he
    · exact h'

/-- A run whose ASR stage raises. -/
def oracleAsrFail : Oracle :=
  ⟨Except.error "asr timeout", Except.ok [], Except.ok ⟨"", [], 0⟩, fun _ => Except.ok 0,
    Except.ok (), Except.ok (), Except.ok "", true⟩

/-- C10 witness: after one failed request the counters read
`total = 0, successful = 0, failed = 1`, so `total ≠ successful + failed`. -/
theorem C10_total_counts_only_successes_witness :
    (runRequests [oracleAsrFail] initMetrics).totalRequests ≠
      (runRequests [oracleAsrFail] initMetrics).successfulRequests +
        (runRequests [oracleAsrFail] initMetrics).failedRequests :=
  (C10_total_counts_only_successes [oracleAsrFail]).2.1 (by decide)

end BlackBox
